import Mathlib

/-!
Verification of the ESA report-assembly PDF pipeline.

This file gives a shallow embedding of the core job pipeline implemented in
`src/tools/pdf_tools.py` (and, where a claim refers to it, the parallel
handlers in `src/mcp_server.py`): structure resolution, split, merge and QC,
over an in-memory job store.  PDF documents are modelled as lists of pages; a
page carries its opaque content and the (optional) text that text extraction
would return for it.  File paths are modelled by storing the artifact page
lists themselves in the job records; all other fields follow the source.
-/

/-- A single PDF page: `content` stands for the opaque page bytes, `text` for
the result of `page.extract_text()` (`none` models a `None` return). -/
structure Page where
  content : String
  text : Option String
deriving DecidableEq, Repr

/-- A PDF document is an ordered sequence of pages (`reader.pages`). -/
abbrev Document := List Page

/-- `StructureDetectionResult` from `src/tools/pdf_tools.py` (lines 33-43).
`confidence` is modelled as an exact rational. -/
structure StructureDetectionResult where
  job_id : String
  front_matter_range : Int × Int
  exec_summary_page : Int
  written_report_range : Int × Int
  appendix_start_page : Int
  appendices_range : Int × Int
  confidence : ℚ
  reasoning : List String
  warnings : List String
deriving DecidableEq, Repr

/-- `SplitResult` from `src/tools/pdf_tools.py` (lines 46-52), with the two
output files held as page lists in place of file paths. -/
structure SplitResult where
  job_id : String
  written_report : Document
  written_report_pages : Int
  appendices : Document
  appendices_pages : Int
deriving DecidableEq, Repr

/-- `MergeResult` from `src/tools/pdf_tools.py` (lines 55-59), with the
recompiled file held as a page list in place of a file path. -/
structure MergeResult where
  job_id : String
  recompiled : Document
  recompiled_pages : Nat
deriving DecidableEq, Repr

/-- `QCResult` from `src/tools/pdf_tools.py` (lines 62-71); the
`qc_summary_path` report artifact is outside the model. -/
structure QCResult where
  job_id : String
  original_pages : Nat
  recompiled_pages : Nat
  page_count_match : Bool
  blank_pages_detected : List Nat
  potential_issues : List String
  qc_passed : Bool
deriving DecidableEq, Repr

/-- The QC record stored by `handle_qc_analysis` in `src/mcp_server.py`
(lines 531-540); that handler keeps no issues list. -/
structure McpQCRecord where
  original_pages : Nat
  recompiled_pages : Nat
  page_count_match : Bool
  blank_pages : List Nat
  qc_passed : Bool
deriving DecidableEq, Repr

/-- One entry of the in-memory `_jobs` dictionary: the original document (in
place of `file_path`), its page count, and the per-stage records. -/
structure Job where
  document : Document
  page_count : Nat
  structure? : Option StructureDetectionResult
  split : Option SplitResult
  merge : Option MergeResult
  qc : Option QCResult
deriving DecidableEq, Repr

/-- The in-memory job store `_jobs : dict[str, dict]`, as an association
list keyed by job id. -/
abbrev JobStore := List (String × Job)

/-- Dictionary lookup `_jobs[job_id]` (`_get_job`, lines 78-82): the first
entry with the given key, if any. -/
def lookupJob : JobStore → String → Option Job
  | [], _ => none
  | (k, j) :: rest, job_id => if k = job_id then some j else lookupJob rest job_id

/-- `_save_job` (lines 85-89) on an existing job: `_jobs[job_id].update(data)`
updates the stored record for `job_id` in place and touches nothing else. -/
def updateJob : JobStore → String → (Job → Job) → JobStore
  | [], _, _ => []
  | (k, j) :: rest, job_id, f =>
    (if k = job_id then (k, f j) else (k, j)) :: updateJob rest job_id f

/-- Python `round(q, 2)`: round to two decimal places.  (All confidence
values produced below are exact hundredths, where every rounding mode
agrees.) -/
def round2 (q : ℚ) : ℚ := (⌊q * 100 + 1/2⌋ : ℚ) / 100

/-- The body of `detect_report_structure` (`src/tools/pdf_tools.py`,
lines 204-243) after the job lookup: validation, range computation, the
confidence heuristic and the result record.  Inputs are Python ints. -/
def detectStructureCore (job_id : String) (total_pages : Nat)
    (exec_summary_page appendix_start_page : Int) (reasoning : String) :
    Except String StructureDetectionResult :=
  if exec_summary_page < 1 then
    .error "Error: exec_summary_page must be >= 1"
  else if appendix_start_page ≤ exec_summary_page then
    .error "Error: appendix_start_page must be after exec_summary_page"
  else if (total_pages : Int) < appendix_start_page then
    .error ("Error: appendix_start_page (" ++ toString appendix_start_page ++
      ") exceeds total pages (" ++ toString total_pages ++ ")")
  else
    let front_matter_range : Int × Int :=
      if 1 < exec_summary_page then (1, exec_summary_page - 1) else (0, 0)
    let written_report_range : Int × Int :=
      (exec_summary_page, appendix_start_page - 1)
    let appendices_range : Int × Int := (appendix_start_page, (total_pages : Int))
    let confidence : ℚ :=
      (0.85 : ℚ) -
        (if appendix_start_page - exec_summary_page < 10 then 0.1 else 0) -
        (if (total_pages : Int) - appendix_start_page < 20 then 0.1 else 0)
    let warnings : List String :=
      (if appendix_start_page - exec_summary_page < 10 then
        ["Written report section seems short"] else []) ++
      (if (total_pages : Int) - appendix_start_page < 20 then
        ["Appendices section seems short for a typical ESA"] else [])
    .ok
      { job_id := job_id
        front_matter_range := front_matter_range
        exec_summary_page := exec_summary_page
        written_report_range := written_report_range
        appendix_start_page := appendix_start_page
        appendices_range := appendices_range
        confidence := round2 confidence
        reasoning := String.splitOn reasoning ". "
        warnings := warnings }

/-- `detect_report_structure` at the store level: job lookup, the core above,
and `_save_job(job_id, {"structure": ...})` on success.  The source returns a
formatted string; failure messages are kept, success carries the result. -/
def detect_report_structure (store : JobStore) (job_id : String)
    (exec_summary_page appendix_start_page : Int) (reasoning : String) :
    JobStore × Except String StructureDetectionResult :=
  match lookupJob store job_id with
  | none => (store, .error ("Error detecting structure: Job " ++ job_id ++ " not found"))
  | some job =>
    match detectStructureCore job_id job.page_count
        exec_summary_page appendix_start_page reasoning with
    | .error msg => (store, .error msg)
    | .ok st =>
      (updateJob store job_id (fun j => { j with structure? := some st }), .ok st)

/-- The page-copy loop `for page_num in range(r[0] - 1, r[1]):
writer.add_page(reader.pages[page_num])` used by split and merge: pages at
0-indexed positions `r.1 - 1, ..., r.2 - 1` of the document, in order. -/
def sliceRange (doc : Document) (r : Int × Int) : Document :=
  (doc.drop (r.1 - 1).toNat).take (r.2 - (r.1 - 1)).toNat

/-- `pdf_split` (`src/tools/pdf_tools.py`, lines 274-351): precondition check
on the stored structure, the two page-copy loops, page counts from range
arithmetic, and `_save_job(job_id, {"split": ...})`. -/
def pdf_split (store : JobStore) (job_id : String) :
    JobStore × Except String SplitResult :=
  match lookupJob store job_id with
  | none => (store, .error ("Error splitting PDF: Job " ++ job_id ++ " not found"))
  | some job =>
    match job.structure? with
    | none => (store, .error "Error: Must run detect_report_structure first")
    | some st =>
      let written := sliceRange job.document st.written_report_range
      let appendices := sliceRange job.document st.appendices_range
      let written_pages := st.written_report_range.2 - st.written_report_range.1 + 1
      let appendix_pages := st.appendices_range.2 - st.appendices_range.1 + 1
      let res : SplitResult :=
        { job_id := job_id
          written_report := written
          written_report_pages := written_pages
          appendices := appendices
          appendices_pages := appendix_pages }
      (updateJob store job_id (fun j => { j with split := some res }), .ok res)

/-- `pdf_merge` (`src/tools/pdf_tools.py`, lines 354-428): precondition check
on the split record, front matter copied from the original document when
`front_matter_range[0] > 0` (the range read via `job.get("structure",
{}).get("front_matter_range", (0, 0))`), then every page of the two split
artifacts in order; the page count is the running `total_pages` counter. -/
def pdf_merge (store : JobStore) (job_id : String) :
    JobStore × Except String MergeResult :=
  match lookupJob store job_id with
  | none => (store, .error ("Error merging PDFs: Job " ++ job_id ++ " not found"))
  | some job =>
    match job.split with
    | none => (store, .error "Error: Must run pdf_split first")
    | some sp =>
      let front_matter_range : Int × Int :=
        (job.structure?.map fun s => s.front_matter_range).getD (0, 0)
      let front : Document :=
        if 0 < front_matter_range.1 then sliceRange job.document front_matter_range
        else []
      let recompiled := front ++ sp.written_report ++ sp.appendices
      let res : MergeResult :=
        { job_id := job_id
          recompiled := recompiled
          recompiled_pages := recompiled.length }
      (updateJob store job_id (fun j => { j with merge := some res }), .ok res)

/-- Python `str.strip()` on the character sequence of a string: drop
whitespace from both ends (interior whitespace is kept). -/
def pyStrip (s : String) : List Char :=
  ((s.data.dropWhile Char.isWhitespace).reverse.dropWhile Char.isWhitespace).reverse

/-- The blank-page test of the QC scan (`pdf_tools.py` lines 468-469 and
`mcp_server.py` lines 493-494): `if not text or len(text.strip()) < 10`.
`not text` is true for a `None` return and for the empty string; otherwise
the text is stripped of leading and trailing whitespace and its length
compared with 10. -/
def pyTextBlank (t : Option String) : Bool :=
  match t with
  | none => true
  | some s => s.data.isEmpty || (pyStrip s).length < 10

/-- The enumeration loop `for i, page in enumerate(pdf.pages[:50]): ...
blank_pages.append(i + 1)`: collect 1-indexed positions of blank pages,
starting the index counter at `i`. -/
def scanBlanks : List Page → Nat → List Nat
  | [], _ => []
  | p :: rest, i =>
    if pyTextBlank p.text then (i + 1) :: scanBlanks rest (i + 1)
    else scanBlanks rest (i + 1)

/-- The body of `pdf_qc_analysis` (`src/tools/pdf_tools.py`, lines 449-538)
after the job lookup and precondition check: page-count comparison, the
blank-page scan over the first 50 recompiled pages, the issues list, the
verdict `qc_passed = page_count_match and len(issues) == 0`, and the stored
record with `blank_pages[:20]`. -/
def qcCore (job_id : String) (original_pages : Nat) (recompiled : Document) :
    QCResult :=
  let recompiled_pages := recompiled.length
  let page_count_match : Bool := original_pages == recompiled_pages
  let blank_pages := scanBlanks (recompiled.take 50) 0
  let issues : List String :=
    (if page_count_match then []
     else ["Page count mismatch: original=" ++ toString original_pages ++
       ", recompiled=" ++ toString recompiled_pages]) ++
    (if blank_pages.isEmpty then []
     else ["Potential blank pages detected: " ++ toString (blank_pages.take 10)])
  let qc_passed : Bool := page_count_match && issues.isEmpty
  { job_id := job_id
    original_pages := original_pages
    recompiled_pages := recompiled_pages
    page_count_match := page_count_match
    blank_pages_detected := blank_pages.take 20
    potential_issues := issues
    qc_passed := qc_passed }

/-- `pdf_qc_analysis` at the store level: job lookup, precondition check on
the merge record, the QC core above, and `_save_job(job_id, {"qc": ...})`. -/
def pdf_qc_analysis (store : JobStore) (job_id : String) :
    JobStore × Except String QCResult :=
  match lookupJob store job_id with
  | none => (store, .error ("Error running QC: Job " ++ job_id ++ " not found"))
  | some job =>
    match job.merge with
    | none => (store, .error "Error: Must run pdf_merge first")
    | some mr =>
      let res := qcCore job_id job.page_count mr.recompiled
      (updateJob store job_id (fun j => { j with qc := some res }), .ok res)

/-- The body of `handle_qc_analysis` (`src/mcp_server.py`, lines 469-540)
after its precondition check: the same page-count comparison and blank-page
scan, but `qc_passed = page_count_match` and no issues list. -/
def handle_qc_analysis_core (original_pages : Nat) (recompiled : Document) :
    McpQCRecord :=
  let recompiled_pages := recompiled.length
  let page_count_match : Bool := original_pages == recompiled_pages
  let blank_pages := scanBlanks (recompiled.take 50) 0
  { original_pages := original_pages
    recompiled_pages := recompiled_pages
    page_count_match := page_count_match
    blank_pages := blank_pages.take 20
    qc_passed := page_count_match }

/-- The blank-page classification as worded by the specification: a page is
blank when its extracted text is empty (or missing) or has fewer than 10
non-whitespace characters after trimming.  Kept separate from `pyTextBlank`
(the source's test) for comparison; the two differ on texts whose interior
whitespace pads the stripped length to 10 or more. -/
def specTextBlank (t : Option String) : Bool :=
  match t with
  | none => true
  | some s =>
    s.data.isEmpty || ((pyStrip s).filter fun c => !c.isWhitespace).length < 10

/-- The page set `[start, end]` named by a stored range, with the sentinel
`(0, 0)` standing for the empty range. -/
def rangeFinset (r : Int × Int) : Finset Int :=
  if r = (0, 0) then ∅ else Finset.Icc r.1 r.2

/-- The fields of a structure result that do not name the job: ranges,
boundary pages, confidence, reasoning list and warnings. -/
def structureData (s : StructureDetectionResult) :
    (Int × Int) × Int × (Int × Int) × Int × (Int × Int) × ℚ × List String × List String :=
  (s.front_matter_range, s.exec_summary_page, s.written_report_range,
    s.appendix_start_page, s.appendices_range, s.confidence, s.reasoning, s.warnings)

/-- Fixture: a sample page used by concrete witnesses. -/
def samplePage : Page := { content := "c1", text := some "t1" }

/-- Fixture: a job fresh from intake (no stage records yet). -/
def emptyJob : Job :=
  { document := [samplePage], page_count := 1,
    structure? := none, split := none, merge := none, qc := none }

/-- Fixture: a stored structure record. -/
def sampleStructure : StructureDetectionResult :=
  { job_id := "b", front_matter_range := (0, 0), exec_summary_page := 1,
    written_report_range := (1, 1), appendix_start_page := 2,
    appendices_range := (2, 2), confidence := 17/20, reasoning := [],
    warnings := [] }

/-- Fixture: a stored split record. -/
def sampleSplit : SplitResult :=
  { job_id := "b", written_report := [samplePage], written_report_pages := 1,
    appendices := [samplePage], appendices_pages := 1 }

/-- Fixture: a stored merge record. -/
def sampleMerge : MergeResult :=
  { job_id := "b", recompiled := [samplePage], recompiled_pages := 1 }

/-- Fixture: a second fresh two-page job, used to compare two resolutions. -/
def freshJob2 : Job :=
  { document := [samplePage, samplePage], page_count := 2,
    structure? := none, split := none, merge := none, qc := none }

/-- Fixture: a job that has passed structure resolution, split and merge. -/
def preparedJob : Job :=
  { document := [samplePage, samplePage], page_count := 2,
    structure? := some sampleStructure, split := some sampleSplit,
    merge := some sampleMerge, qc := none }

/-! ### General lemmas about the embedding -/

/-- Rounding an exact hundredth to two decimal places returns it unchanged. -/
lemma round2_hundredth (n : ℤ) : round2 ((n : ℚ) / 100) = (n : ℚ) / 100 := by
  unfold round2
  have h : ((n : ℚ) / 100 * 100 + 1 / 2) = (n : ℚ) + 1 / 2 := by ring
  rw [h, Int.floor_int_add]
  norm_num

/-- On valid boundaries, `detectStructureCore` succeeds with exactly the
record the source computes. -/
lemma detectStructureCore_eq_ok (job_id : String) (t : Nat) (e a : Int)
    (r : String) (h1 : 1 ≤ e) (h2 : e < a) (h3 : a ≤ (t : Int)) :
    detectStructureCore job_id t e a r = .ok
      { job_id := job_id
        front_matter_range := if 1 < e then (1, e - 1) else (0, 0)
        exec_summary_page := e
        written_report_range := (e, a - 1)
        appendix_start_page := a
        appendices_range := (a, (t : Int))
        confidence := round2 ((0.85 : ℚ) - (if a - e < 10 then 0.1 else 0) -
          (if (t : Int) - a < 20 then 0.1 else 0))
        reasoning := String.splitOn r ". "
        warnings :=
          (if a - e < 10 then ["Written report section seems short"] else []) ++
          (if (t : Int) - a < 20 then
            ["Appendices section seems short for a typical ESA"] else []) } := by
  unfold detectStructureCore
  rw [if_neg (by omega), if_neg (by omega), if_neg (by omega)]

/-- The third validation message never equals the first: they differ at
character index 7. -/
lemma exceeds_msg_ne_first (x y : String) :
    ("Error: appendix_start_page (" ++ x ++ ") exceeds total pages (" ++ y ++ ")") ≠
      "Error: exec_summary_page must be >= 1" := by
  intro h
  have h8 := congrArg (fun s => s.data[7]?) h
  simp only [String.data_append, List.append_assoc] at h8
  rw [List.getElem?_append_left (by decide)] at h8
  exact absurd h8 (by decide)

/-- The third validation message never equals the second: they differ at
character index 27. -/
lemma exceeds_msg_ne_second (x y : String) :
    ("Error: appendix_start_page (" ++ x ++ ") exceeds total pages (" ++ y ++ ")") ≠
      "Error: appendix_start_page must be after exec_summary_page" := by
  intro h
  have h27 := congrArg (fun s => s.data[27]?) h
  simp only [String.data_append, List.append_assoc] at h27
  rw [List.getElem?_append_left (by decide)] at h27
  exact absurd h27 (by decide)

/-! ### C4: validation order of structure resolution -/

/-- C4: structure resolution fails exactly when one of the three validation
conditions holds, checked in this order — `exec_summary_page < 1`, then
`appendix_start_page <= exec_summary_page`, then
`appendix_start_page > total_pages` — each producing its distinct validation
error; when none holds, resolution succeeds. -/
theorem detect_validation_exact (job_id : String) (t : Nat) (e a : Int) (r : String) :
    (detectStructureCore job_id t e a r =
        .error "Error: exec_summary_page must be >= 1" ↔ e < 1) ∧
    (detectStructureCore job_id t e a r =
        .error "Error: appendix_start_page must be after exec_summary_page" ↔
      1 ≤ e ∧ a ≤ e) ∧
    (detectStructureCore job_id t e a r =
        .error ("Error: appendix_start_page (" ++ toString a ++
          ") exceeds total pages (" ++ toString t ++ ")") ↔
      1 ≤ e ∧ e < a ∧ (t : Int) < a) ∧
    ((∃ st, detectStructureCore job_id t e a r = .ok st) ↔
      1 ≤ e ∧ e < a ∧ a ≤ (t : Int)) := by
  unfold detectStructureCore
  by_cases hc1 : e < 1
  · rw [if_pos hc1]
    refine ⟨⟨fun _ => hc1, fun _ => rfl⟩,
      ⟨fun h => ?_, fun h => absurd hc1 (by omega)⟩,
      ⟨fun h => ?_, fun h => absurd hc1 (by omega)⟩,
      ⟨fun h => ?_, fun h => absurd hc1 (by omega)⟩⟩
    · exact absurd (Except.error.inj h) (by decide)
    · exact absurd (Except.error.inj h).symm (exceeds_msg_ne_first _ _)
    · obtain ⟨st, hst⟩ := h; exact Except.noConfusion hst
  · rw [if_neg hc1]
    by_cases hc2 : a ≤ e
    · rw [if_pos hc2]
      refine ⟨⟨fun h => ?_, fun h => absurd h hc1⟩,
        ⟨fun _ => ⟨by omega, hc2⟩, fun _ => rfl⟩,
        ⟨fun h => ?_, fun h => absurd h.2.1 (by omega)⟩,
        ⟨fun h => ?_, fun h => absurd h.2.1 (by omega)⟩⟩
      · exact absurd (Except.error.inj h) (by decide)
      · exact absurd (Except.error.inj h).symm (exceeds_msg_ne_second _ _)
      · obtain ⟨st, hst⟩ := h; exact Except.noConfusion hst
    · rw [if_neg hc2]
      by_cases hc3 : (t : Int) < a
      · rw [if_pos hc3]
        refine ⟨⟨fun h => ?_, fun h => absurd h hc1⟩,
          ⟨fun h => ?_, fun h => absurd h.2 hc2⟩,
          ⟨fun _ => ⟨by omega, by omega, hc3⟩, fun _ => rfl⟩,
          ⟨fun h => ?_, fun h => absurd h.2.2 (by omega)⟩⟩
        · exact absurd (Except.error.inj h) (exceeds_msg_ne_first _ _)
        · exact absurd (Except.error.inj h) (exceeds_msg_ne_second _ _)
        · obtain ⟨st, hst⟩ := h; exact Except.noConfusion hst
      · rw [if_neg hc3]
        refine ⟨⟨fun h => ?_, fun h => absurd h hc1⟩,
          ⟨fun h => ?_, fun h => absurd h.2 hc2⟩,
          ⟨fun h => ?_, fun h => absurd h.2.2 hc3⟩,
          ⟨fun _ => ⟨by omega, by omega, by omega⟩, fun _ => ⟨_, rfl⟩⟩⟩
        · exact Except.noConfusion h
        · exact Except.noConfusion h
        · exact Except.noConfusion h

/-- Witness for C4: each validation branch and the success branch reached at a
concrete input. -/
theorem detect_validation_exact_witness :
    detectStructureCore "j" 10 0 5 "r" =
      .error "Error: exec_summary_page must be >= 1" ∧
    detectStructureCore "j" 10 3 2 "r" =
      .error "Error: appendix_start_page must be after exec_summary_page" ∧
    detectStructureCore "j" 10 3 12 "r" =
      .error ("Error: appendix_start_page (" ++ toString (12 : Int) ++
        ") exceeds total pages (" ++ toString (10 : Nat) ++ ")") ∧
    (∃ st, detectStructureCore "j" 10 3 8 "r" = .ok st) :=
  ⟨(detect_validation_exact "j" 10 0 5 "r").1.mpr (by decide),
    (detect_validation_exact "j" 10 3 2 "r").2.1.mpr (by decide),
    (detect_validation_exact "j" 10 3 12 "r").2.2.1.mpr (by decide),
    (detect_validation_exact "j" 10 3 8 "r").2.2.2.mpr (by decide)⟩

/-! ### C6: the confidence heuristic -/

/-- Counterexample to C6 as stated: at `total_pages = 30`,
`exec_summary_page = 1`, `appendix_start_page = 11` the appendices range is
`(11, 30)`, which spans exactly 20 pages — not fewer than 20 — yet the
"Appendices section seems short for a typical ESA" warning is added and the
confidence is not 0.85. -/
theorem detect_confidence_claim_cex :
    ((detectStructureCore "j" 30 1 11 "r").toOption.map fun s =>
        (s.appendices_range, s.warnings)) =
      some ((11, 30), ["Appendices section seems short for a typical ESA"]) ∧
    ¬ ((30 : Int) - 11 + 1 < 20) ∧
    ((detectStructureCore "j" 30 1 11 "r").toOption.map fun s => s.confidence) ≠
      some (0.85 : ℚ) := by
  refine ⟨by decide, by decide, ?_⟩
  have hc : ((detectStructureCore "j" 30 1 11 "r").toOption.map fun s => s.confidence) =
      some (round2 ((0.85 : ℚ) - (if (11 : Int) - 1 < 10 then 0.1 else 0) -
        (if ((30 : Nat) : Int) - 11 < 20 then 0.1 else 0))) := by
    rw [detectStructureCore_eq_ok "j" 30 1 11 "r" (by decide) (by decide) (by decide)]
    rfl
  rw [hc, if_neg (by norm_num), if_pos (by norm_num)]
  have h75 : ((0.85 : ℚ) - 0 - 0.1) = ((75 : ℤ) : ℚ) / 100 := by norm_num
  rw [h75, round2_hundredth]
  simp only [ne_eq, Option.some.injEq]
  norm_num

/-- Successful structure resolution implies the boundary inputs were valid. -/
lemma detectStructureCore_ok_bounds (job_id : String) (t : Nat) (e a : Int)
    (r : String) (st : StructureDetectionResult)
    (hok : detectStructureCore job_id t e a r = .ok st) :
    1 ≤ e ∧ e < a ∧ a ≤ (t : Int) := by
  unfold detectStructureCore at hok
  by_cases hc1 : e < 1
  · rw [if_pos hc1] at hok; exact Except.noConfusion hok
  · rw [if_neg hc1] at hok
    by_cases hc2 : a ≤ e
    · rw [if_pos hc2] at hok; exact Except.noConfusion hok
    · rw [if_neg hc2] at hok
      by_cases hc3 : (t : Int) < a
      · rw [if_pos hc3] at hok; exact Except.noConfusion hok
      · exact ⟨by omega, by omega, by omega⟩

/-- C6 (amended): on every successful structure resolution the confidence is
0.85, minus 0.10 (with warning "Written report section seems short") exactly
when the written-report range spans fewer than 10 pages, minus 0.10 (with
warning "Appendices section seems short for a typical ESA") exactly when the
appendices range spans fewer than 21 pages (the source tests
`total_pages - appendix_start_page < 20`, i.e. a span of at most 20 pages);
no other warnings are added. -/
theorem detect_confidence_amended (job_id : String) (t : Nat) (e a : Int)
    (r : String) (st : StructureDetectionResult)
    (hok : detectStructureCore job_id t e a r = .ok st) :
    st.confidence = (0.85 : ℚ) -
        (if st.written_report_range.2 - st.written_report_range.1 + 1 < 10 then 0.1 else 0) -
        (if st.appendices_range.2 - st.appendices_range.1 + 1 < 21 then 0.1 else 0) ∧
    st.warnings =
      (if st.written_report_range.2 - st.written_report_range.1 + 1 < 10 then
        ["Written report section seems short"] else []) ++
      (if st.appendices_range.2 - st.appendices_range.1 + 1 < 21 then
        ["Appendices section seems short for a typical ESA"] else []) := by
  obtain ⟨h1, h2, h3⟩ := detectStructureCore_ok_bounds job_id t e a r st hok
  rw [detectStructureCore_eq_ok job_id t e a r h1 h2 h3] at hok
  obtain rfl := Except.ok.inj hok
  dsimp only
  have hiw : (a - 1 - e + 1 < 10) ↔ (a - e < 10) := by omega
  have hia : ((t : Int) - a + 1 < 21) ↔ ((t : Int) - a < 20) := by omega
  simp only [hiw, hia]
  by_cases hw : a - e < 10 <;> by_cases ha : (t : Int) - a < 20
  · simp only [if_pos hw, if_pos ha]
    refine ⟨?_, trivial⟩
    rw [show ((0.85 : ℚ) - 0.1 - 0.1) = ((65 : ℤ) : ℚ) / 100 from by norm_num,
      round2_hundredth]
  · simp only [if_pos hw, if_neg ha]
    refine ⟨?_, trivial⟩
    rw [show ((0.85 : ℚ) - 0.1 - 0) = ((75 : ℤ) : ℚ) / 100 from by norm_num,
      round2_hundredth]
  · simp only [if_neg hw, if_pos ha]
    refine ⟨?_, trivial⟩
    rw [show ((0.85 : ℚ) - 0 - 0.1) = ((75 : ℤ) : ℚ) / 100 from by norm_num,
      round2_hundredth]
  · simp only [if_neg hw, if_neg ha]
    refine ⟨?_, trivial⟩
    rw [show ((0.85 : ℚ) - 0 - 0) = ((85 : ℤ) : ℚ) / 100 from by norm_num,
      round2_hundredth]

/-- Witness for C6 (amended) at `total_pages = 75`, boundaries 4 and 38. -/
theorem detect_confidence_amended_witness :
    round2 ((0.85 : ℚ) - 0 - 0) = (0.85 : ℚ) -
        (if (37 : Int) - 4 + 1 < 10 then 0.1 else 0) -
        (if (75 : Int) - 38 + 1 < 21 then 0.1 else 0) ∧
    ([] : List String) =
      (if (37 : Int) - 4 + 1 < 10 then ["Written report section seems short"] else []) ++
      (if (75 : Int) - 38 + 1 < 21 then
        ["Appendices section seems short for a typical ESA"] else []) :=
  detect_confidence_amended "j" 75 4 38 "r"
    { job_id := "j", front_matter_range := (1, 3), exec_summary_page := 4,
      written_report_range := (4, 37), appendix_start_page := 38,
      appendices_range := (38, 75), confidence := round2 ((0.85 : ℚ) - 0 - 0),
      reasoning := String.splitOn "r" ". ", warnings := [] } rfl

/-! ### C3: the resolved ranges partition the document -/

/-- Two integer intervals with a gap between their endpoints are disjoint. -/
lemma disjoint_Icc_int (a b c d : Int) (h : b < c) :
    Disjoint (Finset.Icc a b) (Finset.Icc c d) := by
  rw [Finset.disjoint_left]
  intro x hx hx2
  rw [Finset.mem_Icc] at hx
  rw [Finset.mem_Icc] at hx2
  omega

/-- C3: for valid boundaries the three resolved ranges are pairwise disjoint
and, with the sentinel `(0, 0)` read as the empty range, their union is
exactly `[1, total_pages]`. -/
theorem structure_partition (job_id : String) (t : Nat) (e a : Int) (r : String)
    (st : StructureDetectionResult) (ht : 1 ≤ t) (h1 : 1 ≤ e) (h2 : e < a)
    (h3 : a ≤ (t : Int)) (hok : detectStructureCore job_id t e a r = .ok st) :
    Disjoint (rangeFinset st.front_matter_range) (rangeFinset st.written_report_range) ∧
    Disjoint (rangeFinset st.front_matter_range) (rangeFinset st.appendices_range) ∧
    Disjoint (rangeFinset st.written_report_range) (rangeFinset st.appendices_range) ∧
    rangeFinset st.front_matter_range ∪ rangeFinset st.written_report_range ∪
      rangeFinset st.appendices_range = Finset.Icc 1 (t : Int) := by
  rw [detectStructureCore_eq_ok job_id t e a r h1 h2 h3] at hok
  obtain rfl := Except.ok.inj hok
  dsimp only
  have hw : rangeFinset (e, a - 1) = Finset.Icc e (a - 1) := by
    unfold rangeFinset
    rw [if_neg (by simp only [Prod.mk.injEq]; omega)]
  have hap : rangeFinset (a, (t : Int)) = Finset.Icc a (t : Int) := by
    unfold rangeFinset
    rw [if_neg (by simp only [Prod.mk.injEq]; omega)]
  by_cases hfm : 1 < e
  · rw [if_pos hfm]
    have h0 : rangeFinset (1, e - 1) = Finset.Icc 1 (e - 1) := by
      unfold rangeFinset
      rw [if_neg (by simp only [Prod.mk.injEq]; omega)]
    rw [h0, hw, hap]
    refine ⟨disjoint_Icc_int _ _ _ _ (by omega), disjoint_Icc_int _ _ _ _ (by omega),
      disjoint_Icc_int _ _ _ _ (by omega), ?_⟩
    ext x
    simp only [Finset.mem_union, Finset.mem_Icc]
    omega
  · rw [if_neg hfm]
    have h0 : rangeFinset ((0 : Int), (0 : Int)) = ∅ := by
      unfold rangeFinset
      rw [if_pos rfl]
    rw [h0, hw, hap]
    refine ⟨Finset.disjoint_empty_left _, Finset.disjoint_empty_left _,
      disjoint_Icc_int _ _ _ _ (by omega), ?_⟩
    ext x
    simp only [Finset.mem_union, Finset.mem_Icc, Finset.not_mem_empty, false_or]
    omega

/-- Witness for C3 at `total_pages = 75`, boundaries 4 and 38. -/
theorem structure_partition_witness :
    Disjoint (rangeFinset (1, 3)) (rangeFinset (4, 37)) ∧
    Disjoint (rangeFinset (1, 3)) (rangeFinset (38, 75)) ∧
    Disjoint (rangeFinset (4, 37)) (rangeFinset (38, 75)) ∧
    rangeFinset (1, 3) ∪ rangeFinset (4, 37) ∪ rangeFinset (38, 75) =
      Finset.Icc 1 (75 : Int) :=
  structure_partition "j" 75 4 38 "r"
    { job_id := "j", front_matter_range := (1, 3), exec_summary_page := 4,
      written_report_range := (4, 37), appendix_start_page := 38,
      appendices_range := (38, 75), confidence := round2 ((0.85 : ℚ) - 0 - 0),
      reasoning := String.splitOn "r" ". ", warnings := [] }
    (by decide) (by decide) (by decide) (by decide) rfl

/-! ### C2: the split/merge round trip is lossless -/

/-- Splitting a list into three contiguous chunks that exhaust it and
concatenating them returns the list. -/
lemma take_take_drop_eq {α : Type} (l : List α) (m n k : Nat)
    (h : m + n + k = l.length) :
    l.take m ++ ((l.drop m).take n ++ (l.drop (m + n)).take k) = l := by
  conv_rhs => rw [← List.take_length l, ← h]
  rw [List.take_add l (m + n) k, List.take_add l m n, List.append_assoc]

/-- `sliceRange` in drop/take normal form. -/
lemma sliceRange_eq (doc : Document) (s t : Int) :
    sliceRange doc (s, t) = (doc.drop (s - 1).toNat).take (t - s + 1).toNat := by
  unfold sliceRange
  congr 1
  omega

/-- The front-matter segment assembled by `pdf_merge` is an initial segment of
the original document, also when the sentinel range suppresses it. -/
lemma front_eq_take (doc : Document) (e : Int) (h1 : 1 ≤ e) :
    (if 0 < (if 1 < e then ((1 : Int), e - 1) else ((0 : Int), (0 : Int))).1 then
      sliceRange doc (if 1 < e then ((1 : Int), e - 1) else ((0 : Int), (0 : Int)))
    else []) = doc.take (e - 1).toNat := by
  by_cases hfm : 1 < e
  · rw [if_pos hfm, if_pos (by norm_num)]
    rw [show ((1 : Int), e - 1) = (1, e - 1) from rfl, sliceRange_eq]
    rw [show ((1 : Int) - 1).toNat = 0 from rfl, List.drop_zero]
    congr 1
    omega
  · rw [if_neg hfm, if_neg (by decide)]
    rw [show (e - 1).toNat = 0 from by omega, List.take_zero]

/-- The three segments assembled by `pdf_merge` recompose the document. -/
lemma split_merge_roundtrip (doc : Document) (e a : Int) (h1 : 1 ≤ e)
    (h2 : e < a) (h3 : a ≤ (doc.length : Int)) :
    doc.take (e - 1).toNat ++ sliceRange doc (e, a - 1) ++
      sliceRange doc (a, (doc.length : Int)) = doc := by
  rw [sliceRange_eq, sliceRange_eq]
  have hmn : (e - 1).toNat + (a - 1 - e + 1).toNat = (a - 1).toNat := by omega
  rw [← hmn, List.append_assoc]
  exact take_take_drop_eq doc _ _ _ (by omega)

/-- Looking up the updated job id after `_save_job` sees the update. -/
lemma lookupJob_updateJob_self (store : JobStore) (job_id : String) (f : Job → Job) :
    lookupJob (updateJob store job_id f) job_id = (lookupJob store job_id).map f := by
  induction store with
  | nil => rfl
  | cons kv rest ih =>
    obtain ⟨k, j⟩ := kv
    show lookupJob ((if k = job_id then (k, f j) else (k, j)) :: updateJob rest job_id f)
        job_id = Option.map f (lookupJob ((k, j) :: rest) job_id)
    by_cases hk : k = job_id
    · rw [if_pos hk]
      show (if k = job_id then some (f j) else lookupJob (updateJob rest job_id f) job_id)
        = Option.map f (if k = job_id then some j else lookupJob rest job_id)
      rw [if_pos hk, if_pos hk]
      rfl
    · rw [if_neg hk]
      show (if k = job_id then some j else lookupJob (updateJob rest job_id f) job_id)
        = Option.map f (if k = job_id then some j else lookupJob rest job_id)
      rw [if_neg hk, if_neg hk]
      exact ih

/-- Looking up any other job id after `_save_job` sees the old store. -/
lemma lookupJob_updateJob_ne (store : JobStore) (job_id k : String) (f : Job → Job)
    (hne : k ≠ job_id) :
    lookupJob (updateJob store job_id f) k = lookupJob store k := by
  induction store with
  | nil => rfl
  | cons kv rest ih =>
    obtain ⟨k0, j⟩ := kv
    show lookupJob ((if k0 = job_id then (k0, f j) else (k0, j)) :: updateJob rest job_id f)
        k = lookupJob ((k0, j) :: rest) k
    by_cases hk : k0 = job_id
    · rw [if_pos hk]
      show (if k0 = k then some (f j) else lookupJob (updateJob rest job_id f) k)
        = (if k0 = k then some j else lookupJob rest k)
      rw [if_neg (fun h => hne (hk ▸ h).symm), if_neg (fun h => hne (hk ▸ h).symm)]
      exact ih
    · rw [if_neg hk]
      show (if k0 = k then some j else lookupJob (updateJob rest job_id f) k)
        = (if k0 = k then some j else lookupJob rest k)
      by_cases hkk : k0 = k
      · rw [if_pos hkk, if_pos hkk]
      · rw [if_neg hkk, if_neg hkk]
        exact ih

/-- Running split then merge on a job whose structure was just stored
produces exactly the three-segment assembly of `pdf_merge`. -/
lemma pipeline_merge (store : JobStore) (job_id : String) (job : Job)
    (st : StructureDetectionResult)
    (hjob : lookupJob store job_id = some job) :
    ∃ mr : MergeResult,
      (pdf_merge (pdf_split (updateJob store job_id
          (fun j => { j with structure? := some st })) job_id).1 job_id).2 = .ok mr ∧
      mr.recompiled =
        (if 0 < st.front_matter_range.1 then
          sliceRange job.document st.front_matter_range else []) ++
        sliceRange job.document st.written_report_range ++
        sliceRange job.document st.appendices_range := by
  have hlook1 : lookupJob (updateJob store job_id
      (fun j => { j with structure? := some st })) job_id =
      some { job with structure? := some st } := by
    rw [lookupJob_updateJob_self, hjob]; rfl
  unfold pdf_split
  rw [hlook1]
  dsimp only
  unfold pdf_merge
  rw [lookupJob_updateJob_self, hlook1]
  dsimp only
  exact ⟨_, rfl, rfl⟩

/-- C2: for any document and valid boundaries, resolving structure, splitting
and merging yields a recompiled page sequence equal, page for page, to the
original document. -/
theorem split_merge_lossless (store : JobStore) (job_id : String) (job : Job)
    (e a : Int) (r : String)
    (hjob : lookupJob store job_id = some job)
    (hpc : job.page_count = job.document.length)
    (h1 : 1 ≤ e) (h2 : e < a) (h3 : a ≤ (job.document.length : Int)) :
    ∃ mr : MergeResult,
      (pdf_merge (pdf_split (detect_report_structure store job_id e a r).1 job_id).1
        job_id).2 = .ok mr ∧ mr.recompiled = job.document := by
  have h3' : a ≤ (job.page_count : Int) := by rw [hpc]; exact h3
  have hok := detectStructureCore_eq_ok job_id job.page_count e a r h1 h2 h3'
  obtain ⟨st, hst, hfm, hwr, har⟩ :
      ∃ st, detectStructureCore job_id job.page_count e a r = .ok st ∧
        st.front_matter_range = (if 1 < e then ((1 : Int), e - 1) else (0, 0)) ∧
        st.written_report_range = (e, a - 1) ∧
        st.appendices_range = (a, (job.page_count : Int)) := ⟨_, hok, rfl, rfl, rfl⟩
  have hdet : (detect_report_structure store job_id e a r).1 =
      updateJob store job_id (fun j => { j with structure? := some st }) := by
    unfold detect_report_structure
    rw [hjob]
    dsimp only
    rw [hst]
  rw [hdet]
  obtain ⟨mr, hmr, hrec⟩ := pipeline_merge store job_id job st hjob
  refine ⟨mr, hmr, ?_⟩
  rw [hrec, hfm, hwr, har, hpc]
  rw [front_eq_take job.document e h1]
  exact split_merge_roundtrip job.document e a h1 h2 h3

/-- Witness for C2: a five-page document with boundaries 2 and 4 merges back
to the original page list. -/
theorem split_merge_lossless_witness :
    ∃ mr : MergeResult,
      (pdf_merge (pdf_split (detect_report_structure
          [("j",
            { document := [{ content := "c1", text := some "t1" },
                           { content := "c2", text := some "t2" },
                           { content := "c3", text := some "t3" },
                           { content := "c4", text := some "t4" },
                           { content := "c5", text := some "t5" }],
              page_count := 5, structure? := none, split := none,
              merge := none, qc := none })] "j" 2 4 "x").1 "j").1 "j").2 = .ok mr ∧
      mr.recompiled = [{ content := "c1", text := some "t1" },
                       { content := "c2", text := some "t2" },
                       { content := "c3", text := some "t3" },
                       { content := "c4", text := some "t4" },
                       { content := "c5", text := some "t5" }] :=
  split_merge_lossless _ "j"
    { document := [{ content := "c1", text := some "t1" },
                   { content := "c2", text := some "t2" },
                   { content := "c3", text := some "t3" },
                   { content := "c4", text := some "t4" },
                   { content := "c5", text := some "t5" }],
      page_count := 5, structure? := none, split := none,
      merge := none, qc := none }
    2 4 "x" rfl rfl (by decide) (by decide) (by decide)

/-! ### C5 and C8: precondition failures and their frame -/

/-- C5: when structure resolution fails validation, or a stage fails its
precondition check, the job store is left entirely unchanged. -/
theorem failure_preserves_store (store : JobStore) (job_id : String) (job : Job)
    (e a : Int) (r : String) (hjob : lookupJob store job_id = some job) :
    ((e < 1 ∨ a ≤ e ∨ (job.page_count : Int) < a) →
      (detect_report_structure store job_id e a r).1 = store) ∧
    (job.structure? = none → (pdf_split store job_id).1 = store) ∧
    (job.split = none → (pdf_merge store job_id).1 = store) ∧
    (job.merge = none → (pdf_qc_analysis store job_id).1 = store) := by
  refine ⟨?_, ?_, ?_, ?_⟩
  · intro hbad
    unfold detect_report_structure
    rw [hjob]
    dsimp only
    rcases hcore : detectStructureCore job_id job.page_count e a r with msg | st
    · rfl
    · obtain ⟨hb1, hb2, hb3⟩ :=
        detectStructureCore_ok_bounds job_id job.page_count e a r st hcore
      omega
  · intro hnone
    unfold pdf_split
    rw [hjob]
    dsimp only
    rw [hnone]
  · intro hnone
    unfold pdf_merge
    rw [hjob]
    dsimp only
    rw [hnone]
  · intro hnone
    unfold pdf_qc_analysis
    rw [hjob]
    dsimp only
    rw [hnone]

/-- Witness for C5: a rejected boundary pair (4 ≤ 4) and the three stage
precondition failures leave a concrete one-job store untouched. -/
theorem failure_preserves_store_witness :
    (detect_report_structure
      [("j", { document := [{ content := "c1", text := some "t1" }],
               page_count := 1, structure? := none, split := none,
               merge := none, qc := none })] "j" 4 4 "x").1 =
      [("j", { document := [{ content := "c1", text := some "t1" }],
               page_count := 1, structure? := none, split := none,
               merge := none, qc := none })] ∧
    (pdf_split
      [("j", { document := [{ content := "c1", text := some "t1" }],
               page_count := 1, structure? := none, split := none,
               merge := none, qc := none })] "j").1 =
      [("j", { document := [{ content := "c1", text := some "t1" }],
               page_count := 1, structure? := none, split := none,
               merge := none, qc := none })] ∧
    (pdf_merge
      [("j", { document := [{ content := "c1", text := some "t1" }],
               page_count := 1, structure? := none, split := none,
               merge := none, qc := none })] "j").1 =
      [("j", { document := [{ content := "c1", text := some "t1" }],
               page_count := 1, structure? := none, split := none,
               merge := none, qc := none })] ∧
    (pdf_qc_analysis
      [("j", { document := [{ content := "c1", text := some "t1" }],
               page_count := 1, structure? := none, split := none,
               merge := none, qc := none })] "j").1 =
      [("j", { document := [{ content := "c1", text := some "t1" }],
               page_count := 1, structure? := none, split := none,
               merge := none, qc := none })] :=
  ⟨(failure_preserves_store
      [("j", { document := [{ content := "c1", text := some "t1" }], page_count := 1,
               structure? := none, split := none, merge := none, qc := none })] "j"
      { document := [{ content := "c1", text := some "t1" }], page_count := 1,
        structure? := none, split := none, merge := none, qc := none }
      4 4 "x" rfl).1 (Or.inr (Or.inl (by decide))),
    (failure_preserves_store
      [("j", { document := [{ content := "c1", text := some "t1" }], page_count := 1,
               structure? := none, split := none, merge := none, qc := none })] "j"
      { document := [{ content := "c1", text := some "t1" }], page_count := 1,
        structure? := none, split := none, merge := none, qc := none }
      4 4 "x" rfl).2.1 rfl,
    (failure_preserves_store
      [("j", { document := [{ content := "c1", text := some "t1" }], page_count := 1,
               structure? := none, split := none, merge := none, qc := none })] "j"
      { document := [{ content := "c1", text := some "t1" }], page_count := 1,
        structure? := none, split := none, merge := none, qc := none }
      4 4 "x" rfl).2.2.1 rfl,
    (failure_preserves_store
      [("j", { document := [{ content := "c1", text := some "t1" }], page_count := 1,
               structure? := none, split := none, merge := none, qc := none })] "j"
      { document := [{ content := "c1", text := some "t1" }], page_count := 1,
        structure? := none, split := none, merge := none, qc := none }
      4 4 "x" rfl).2.2.2 rfl⟩

/-- C8: split fails with its precondition error exactly when the job has no
stored structure, merge when it has no split record, QC when it has no merge
record; with the required record present each stage succeeds past that
check. -/
theorem stage_preconditions (store : JobStore) (job_id : String) (job : Job)
    (hjob : lookupJob store job_id = some job) :
    (job.structure? = none →
      pdf_split store job_id =
        (store, .error "Error: Must run detect_report_structure first")) ∧
    (∀ st, job.structure? = some st → ∃ res, (pdf_split store job_id).2 = .ok res) ∧
    (job.split = none →
      pdf_merge store job_id = (store, .error "Error: Must run pdf_split first")) ∧
    (∀ sp, job.split = some sp → ∃ res, (pdf_merge store job_id).2 = .ok res) ∧
    (job.merge = none →
      pdf_qc_analysis store job_id = (store, .error "Error: Must run pdf_merge first")) ∧
    (∀ mr, job.merge = some mr → ∃ res, (pdf_qc_analysis store job_id).2 = .ok res) := by
  refine ⟨?_, ?_, ?_, ?_, ?_, ?_⟩
  · intro hnone
    unfold pdf_split
    rw [hjob]
    dsimp only
    rw [hnone]
  · intro st hst
    unfold pdf_split
    rw [hjob]
    dsimp only
    rw [hst]
    exact ⟨_, rfl⟩
  · intro hnone
    unfold pdf_merge
    rw [hjob]
    dsimp only
    rw [hnone]
  · intro sp hsp
    unfold pdf_merge
    rw [hjob]
    dsimp only
    rw [hsp]
    exact ⟨_, rfl⟩
  · intro hnone
    unfold pdf_qc_analysis
    rw [hjob]
    dsimp only
    rw [hnone]
  · intro mr hmr
    unfold pdf_qc_analysis
    rw [hjob]
    dsimp only
    rw [hmr]
    exact ⟨_, rfl⟩


/-- Witness for C8: the three precondition failures on a fresh job and the
three successes on a fully prepared job. -/
theorem stage_preconditions_witness :
    pdf_split [("a", emptyJob)] "a" =
      ([("a", emptyJob)], .error "Error: Must run detect_report_structure first") ∧
    (∃ res, (pdf_split [("b", preparedJob)] "b").2 = .ok res) ∧
    pdf_merge [("a", emptyJob)] "a" =
      ([("a", emptyJob)], .error "Error: Must run pdf_split first") ∧
    (∃ res, (pdf_merge [("b", preparedJob)] "b").2 = .ok res) ∧
    pdf_qc_analysis [("a", emptyJob)] "a" =
      ([("a", emptyJob)], .error "Error: Must run pdf_merge first") ∧
    (∃ res, (pdf_qc_analysis [("b", preparedJob)] "b").2 = .ok res) :=
  ⟨(stage_preconditions [("a", emptyJob)] "a" emptyJob rfl).1 rfl,
    (stage_preconditions [("b", preparedJob)] "b" preparedJob rfl).2.1
      sampleStructure rfl,
    (stage_preconditions [("a", emptyJob)] "a" emptyJob rfl).2.2.1 rfl,
    (stage_preconditions [("b", preparedJob)] "b" preparedJob rfl).2.2.2.1
      sampleSplit rfl,
    (stage_preconditions [("a", emptyJob)] "a" emptyJob rfl).2.2.2.2.1 rfl,
    (stage_preconditions [("b", preparedJob)] "b" preparedJob rfl).2.2.2.2.2
      sampleMerge rfl⟩

/-! ### C9: re-resolution replaces only the stored Structure -/

/-- C9: a successful structure resolution rewrites only the job's stored
structure; its document, page count and any previously stored split, merge
and QC records are untouched, and every other job in the store is
unchanged. -/
theorem restructure_preserves_artifacts (store : JobStore) (job_id : String)
    (job : Job) (e a : Int) (r : String) (st : StructureDetectionResult)
    (hjob : lookupJob store job_id = some job)
    (hok : (detect_report_structure store job_id e a r).2 = .ok st) :
    (∃ job', lookupJob (detect_report_structure store job_id e a r).1 job_id = some job' ∧
      job'.structure? = some st ∧ job'.document = job.document ∧
      job'.page_count = job.page_count ∧ job'.split = job.split ∧
      job'.merge = job.merge ∧ job'.qc = job.qc) ∧
    (∀ k, k ≠ job_id →
      lookupJob (detect_report_structure store job_id e a r).1 k = lookupJob store k) := by
  unfold detect_report_structure at hok ⊢
  rw [hjob] at hok ⊢
  dsimp only at hok ⊢
  have hcore : detectStructureCore job_id job.page_count e a r = .ok st := by
    rcases hc : detectStructureCore job_id job.page_count e a r with msg | st2
    · rw [hc] at hok
      exact Except.noConfusion hok
    · rw [hc] at hok
      obtain rfl := Except.ok.inj hok
      rfl
  rw [hcore]
  dsimp only
  refine ⟨⟨{ job with structure? := some st }, ?_, rfl, rfl, rfl, rfl, rfl, rfl⟩, ?_⟩
  · rw [lookupJob_updateJob_self, hjob]
    rfl
  · intro k hk
    exact lookupJob_updateJob_ne store job_id k _ hk

/-- Witness for C9: re-resolving structure on a job that already has split,
merge and QC records replaces only the structure and leaves the other job
alone. -/
theorem restructure_preserves_artifacts_witness :
    (∃ job', lookupJob (detect_report_structure [("b", preparedJob), ("z", emptyJob)]
          "b" 1 2 "x").1 "b" = some job' ∧
      job'.structure? = some
        { job_id := "b", front_matter_range := (0, 0), exec_summary_page := 1,
          written_report_range := (1, 1), appendix_start_page := 2,
          appendices_range := (2, 2),
          confidence := round2 ((0.85 : ℚ) - 0.1 - 0.1),
          reasoning := String.splitOn "x" ". ",
          warnings := ["Written report section seems short",
            "Appendices section seems short for a typical ESA"] } ∧
      job'.document = preparedJob.document ∧
      job'.page_count = preparedJob.page_count ∧
      job'.split = preparedJob.split ∧
      job'.merge = preparedJob.merge ∧
      job'.qc = preparedJob.qc) ∧
    (∀ k, k ≠ "b" →
      lookupJob (detect_report_structure [("b", preparedJob), ("z", emptyJob)]
          "b" 1 2 "x").1 k =
        lookupJob [("b", preparedJob), ("z", emptyJob)] k) :=
  restructure_preserves_artifacts [("b", preparedJob), ("z", emptyJob)] "b"
    preparedJob 1 2 "x"
    { job_id := "b", front_matter_range := (0, 0), exec_summary_page := 1,
      written_report_range := (1, 1), appendix_start_page := 2,
      appendices_range := (2, 2),
      confidence := round2 ((0.85 : ℚ) - 0.1 - 0.1),
      reasoning := String.splitOn "x" ". ",
      warnings := ["Written report section seems short",
        "Appendices section seems short for a typical ESA"] }
    rfl rfl

/-! ### C10: structure resolution is deterministic in its inputs -/

/-- The job-independent part of a structure result depends only on the page
count, the boundary inputs and the reasoning text, never on the job id. -/
lemma detectStructureCore_data_eq (id1 id2 : String) (t : Nat) (e a : Int)
    (r : String) :
    (detectStructureCore id1 t e a r).toOption.map structureData =
    (detectStructureCore id2 t e a r).toOption.map structureData := by
  unfold detectStructureCore
  by_cases hc1 : e < 1
  · rw [if_pos hc1, if_pos hc1]
  · rw [if_neg hc1, if_neg hc1]
    by_cases hc2 : a ≤ e
    · rw [if_pos hc2, if_pos hc2]
    · rw [if_neg hc2, if_neg hc2]
      by_cases hc3 : (t : Int) < a
      · rw [if_pos hc3, if_pos hc3]
      · rw [if_neg hc3, if_neg hc3]
        rfl

/-- C10: two structure resolutions on jobs with the same page count and the
same boundary and reasoning inputs produce identical results — same ranges,
confidence, warnings and reasoning list — and store identical structure data
(the stored records can differ only in the job id they name). -/
theorem detect_deterministic (store1 store2 : JobStore) (id1 id2 : String)
    (job1 job2 : Job) (e a : Int) (r : String)
    (hj1 : lookupJob store1 id1 = some job1)
    (hj2 : lookupJob store2 id2 = some job2)
    (hpc : job1.page_count = job2.page_count) :
    (detect_report_structure store1 id1 e a r).2.toOption.map structureData =
      (detect_report_structure store2 id2 e a r).2.toOption.map structureData ∧
    (∀ st1, (detect_report_structure store1 id1 e a r).2 = .ok st1 →
      (lookupJob (detect_report_structure store1 id1 e a r).1 id1).map
          (fun j => j.structure?.map structureData) =
        (lookupJob (detect_report_structure store2 id2 e a r).1 id2).map
          (fun j => j.structure?.map structureData)) := by
  unfold detect_report_structure
  rw [hj1, hj2]
  dsimp only
  rw [← hpc]
  have hdata := detectStructureCore_data_eq id1 id2 job1.page_count e a r
  rcases hc1 : detectStructureCore id1 job1.page_count e a r with m1 | s1 <;>
    rcases hc2 : detectStructureCore id2 job1.page_count e a r with m2 | s2 <;>
    rw [hc1, hc2] at hdata
  · exact ⟨rfl, fun st1 h => Except.noConfusion h⟩
  · simp [Except.toOption] at hdata
  · simp [Except.toOption] at hdata
  · simp only [Except.toOption, Option.map_some] at hdata
    refine ⟨by simpa [Except.toOption] using hdata, ?_⟩
    intro st1 h
    rw [lookupJob_updateJob_self, lookupJob_updateJob_self, hj1, hj2]
    simp only [Option.map_some']
    rw [Option.some.inj hdata]

/-- Witness for C10: two different stores, job ids and jobs with the same
page count resolve boundaries 1 and 2 identically. -/
theorem detect_deterministic_witness :
    (detect_report_structure [("b", preparedJob)] "b" 1 2 "x").2.toOption.map
        structureData =
      (detect_report_structure [("z", freshJob2)] "z" 1 2 "x").2.toOption.map
        structureData ∧
    (∀ st1, (detect_report_structure [("b", preparedJob)] "b" 1 2 "x").2 = .ok st1 →
      (lookupJob (detect_report_structure [("b", preparedJob)] "b" 1 2 "x").1 "b").map
          (fun j => j.structure?.map structureData) =
        (lookupJob (detect_report_structure [("z", freshJob2)] "z" 1 2 "x").1 "z").map
          (fun j => j.structure?.map structureData)) :=
  detect_deterministic [("b", preparedJob)] [("z", freshJob2)] "b" "z"
    preparedJob freshJob2 1 2 "x" rfl rfl rfl

/-! ### C1: the QC verdict -/

/-- Counterexample to C1 as stated: a one-page job whose recompiled document
has one (blank) page.  The page counts match, yet `pdf_qc_analysis` reports
`qc_passed = false`, because the detected blank page is recorded as an issue
and `qc_passed` requires the issues list to be empty. -/
theorem qc_passed_claim_cex :
    ((pdf_qc_analysis
        [("j", { document := [{ content := "c1", text := none }],
                 page_count := 1, structure? := none, split := none,
                 merge := some { job_id := "j",
                                 recompiled := [{ content := "c1", text := none }],
                                 recompiled_pages := 1 },
                 qc := none })] "j").2.toOption.map
        (fun q => (q.page_count_match, q.blank_pages_detected, q.qc_passed))) =
      some (true, [1], false) := by decide

/-- C1 (amended): in the agent tool `pdf_qc_analysis`, `qc_passed` is true
exactly when the page counts match **and** the blank-page scan found nothing;
in the MCP server handler `handle_qc_analysis`, `qc_passed` equals
`page_count_match` and blank pages are advisory only. -/
theorem qc_passed_iff_amended (job_id : String) (o : Nat) (d : Document) :
    ((qcCore job_id o d).qc_passed = true ↔
      ((qcCore job_id o d).page_count_match = true ∧
        (qcCore job_id o d).blank_pages_detected = [])) ∧
    (handle_qc_analysis_core o d).qc_passed =
      (handle_qc_analysis_core o d).page_count_match := by
  constructor
  · unfold qcCore
    dsimp only
    cases hpm : (o == d.length) <;>
      rcases hbl : scanBlanks (d.take 50) 0 with _ | ⟨p, ps⟩ <;> simp
  · rfl

/-- Witness for C1 (amended) at a concrete blank one-page document. -/
theorem qc_passed_iff_amended_witness :
    ((qcCore "j" 1 [{ content := "c1", text := none }]).qc_passed = true ↔
      ((qcCore "j" 1 [{ content := "c1", text := none }]).page_count_match = true ∧
        (qcCore "j" 1 [{ content := "c1", text := none }]).blank_pages_detected = [])) ∧
    (handle_qc_analysis_core 1 [{ content := "c1", text := none }]).qc_passed =
      (handle_qc_analysis_core 1 [{ content := "c1", text := none }]).page_count_match :=
  qc_passed_iff_amended "j" 1 [{ content := "c1", text := none }]

/-! ### C7: the blank-page scan -/

/-- Membership in the blank-page scan: exactly the 1-indexed positions of
pages that the source's blank test accepts, offset by the running counter. -/
lemma mem_scanBlanks (l : List Page) (i p : Nat) :
    p ∈ scanBlanks l i ↔
      ∃ j pg, l[j]? = some pg ∧ p = i + j + 1 ∧ pyTextBlank pg.text = true := by
  induction l generalizing i with
  | nil => simp [scanBlanks]
  | cons q rest ih =>
    unfold scanBlanks
    by_cases hb : pyTextBlank q.text = true
    · rw [if_pos hb]
      simp only [List.mem_cons, ih]
      constructor
      · rintro (rfl | ⟨j, pg, hj, rfl, hpg⟩)
        · exact ⟨0, q, by simp, by omega, hb⟩
        · exact ⟨j + 1, pg, by simpa using hj, by omega, hpg⟩
      · rintro ⟨j, pg, hj, rfl, hpg⟩
        cases j with
        | zero =>
          left
          omega
        | succ j =>
          right
          refine ⟨j, pg, ?_, by omega, hpg⟩
          simpa using hj
    · rw [if_neg hb]
      rw [ih]
      constructor
      · rintro ⟨j, pg, hj, rfl, hpg⟩
        exact ⟨j + 1, pg, by simpa using hj, by omega, hpg⟩
      · rintro ⟨j, pg, hj, rfl, hpg⟩
        cases j with
        | zero =>
          simp only [List.getElem?_cons_zero, Option.some.injEq] at hj
          exact absurd (hj ▸ hpg) hb
        | succ j =>
          refine ⟨j, pg, by simpa using hj, by omega, hpg⟩

/-- Counterexample to C7 as stated: the page text "a b c d e f" has 11
characters after trimming (interior spaces count), so the source does not
classify the page as blank — yet it has only 6 non-whitespace characters,
fewer than 10, so the claim's classification calls it blank.  The page is
within the first 50 and the list is far below 20 entries, so the claim
predicts page 1 in the list; the code returns an empty list. -/
theorem qc_blank_claim_cex :
    (qcCore "j" 1 [{ content := "c1", text := some "a b c d e f" }]).blank_pages_detected
      = [] ∧
    specTextBlank (some "a b c d e f") = true ∧
    pyTextBlank (some "a b c d e f") = false := by decide

/-- C7 (amended): the QC blank-page scan stores at most 20 entries; every
stored entry is a 1-indexed page number within the first 50 pages of the
recompiled document whose extracted text is missing, empty, or shorter than
10 characters after trimming leading and trailing whitespace (interior
whitespace counts towards the length); and, as long as the scan of the first
50 pages found at most 20 blanks, every such page number is stored. -/
theorem qc_blank_scan_amended (job_id : String) (o : Nat) (d : Document) :
    (qcCore job_id o d).blank_pages_detected.length ≤ 20 ∧
    (∀ p ∈ (qcCore job_id o d).blank_pages_detected,
      1 ≤ p ∧ p ≤ 50 ∧ ∃ pg, d[p - 1]? = some pg ∧ pyTextBlank pg.text = true) ∧
    ((scanBlanks (d.take 50) 0).length ≤ 20 →
      ∀ p, 1 ≤ p → p ≤ 50 →
        (∃ pg, d[p - 1]? = some pg ∧ pyTextBlank pg.text = true) →
        p ∈ (qcCore job_id o d).blank_pages_detected) := by
  refine ⟨?_, ?_, ?_⟩
  · show ((scanBlanks (d.take 50) 0).take 20).length ≤ 20
    rw [List.length_take]
    omega
  · intro p hp
    have hp' : p ∈ scanBlanks (d.take 50) 0 := List.mem_of_mem_take hp
    rw [mem_scanBlanks] at hp'
    obtain ⟨j, pg, hj, rfl, hpg⟩ := hp'
    have hj50 : j < 50 := by
      rw [List.getElem?_eq_some] at hj
      obtain ⟨hlt, _⟩ := hj
      rw [List.length_take] at hlt
      omega
    refine ⟨by omega, by omega, pg, ?_, hpg⟩
    rw [show 0 + j + 1 - 1 = j from by omega]
    rw [List.getElem?_take, if_pos hj50] at hj
    exact hj
  · rintro hlen p h1 h50 ⟨pg, hpg, hblank⟩
    have hmem : p ∈ scanBlanks (d.take 50) 0 := by
      rw [mem_scanBlanks]
      refine ⟨p - 1, pg, ?_, by omega, hblank⟩
      rw [List.getElem?_take, if_pos (by omega)]
      exact hpg
    show p ∈ (scanBlanks (d.take 50) 0).take 20
    rw [List.take_of_length_le hlen]
    exact hmem

/-- Witness for C7 (amended): the stored list for a concrete blank one-page
document is `[1]`, within all three bounds. -/
theorem qc_blank_scan_amended_witness :
    (qcCore "j" 1 [{ content := "c1", text := none }]).blank_pages_detected.length ≤ 20 ∧
    (∀ p ∈ (qcCore "j" 1 [{ content := "c1", text := none }]).blank_pages_detected,
      1 ≤ p ∧ p ≤ 50 ∧ ∃ pg, ([{ content := "c1", text := none }] : Document)[p - 1]?
        = some pg ∧ pyTextBlank pg.text = true) ∧
    ((scanBlanks (([{ content := "c1", text := none }] : Document).take 50) 0).length ≤ 20 →
      ∀ p, 1 ≤ p → p ≤ 50 →
        (∃ pg, ([{ content := "c1", text := none }] : Document)[p - 1]? = some pg ∧
          pyTextBlank pg.text = true) →
        p ∈ (qcCore "j" 1 [{ content := "c1", text := none }]).blank_pages_detected) :=
  qc_blank_scan_amended "j" 1 [{ content := "c1", text := none }]
